import Mathlib

/-!
Verification of the PartSelect chat backend's orchestration core
(`backend/api.js`).  The definitions below are shallow embeddings of the
JavaScript source: pure functions are translated directly, stateful code
(the process-wide circuit breaker) becomes explicit state passing, and
fallible operations (provider calls, the Redis session cache, thrown
exceptions) are modelled with `Except`/`Option`.  External collaborators
(the completion providers, the product store, the JSON parser built into
the JS runtime) are passed in as oracle parameters, exactly at the
boundary where the source calls them.
-/

/-! ## Circuit breaker (`api.js` lines 1199-1252) -/

/-- The three values taken by the module-level `circuitBreakerState`. -/
inductive CBState
  | CLOSED
  | OPEN
  | HALF_OPEN
deriving DecidableEq, Repr

/-- The process-wide mutable breaker state: `circuitBreakerState`,
`failureCount`, `lastFailureTime` (`api.js:1200-1202`).  Timestamps are
milliseconds as returned by `Date.now()`, modelled as `Nat`. -/
structure Breaker where
  state : CBState
  failureCount : Nat
  lastFailureTime : Nat
deriving DecidableEq, Repr

/-- `CIRCUIT_BREAKER_THRESHOLD` (`api.js:1204`). -/
def CIRCUIT_BREAKER_THRESHOLD : Nat := 3

/-- `CIRCUIT_BREAKER_RESET_TIME` (`api.js:1205`), 30 seconds. -/
def CIRCUIT_BREAKER_RESET_TIME : Nat := 30000

/-- Observable outcome of one `callWithBreaker` invocation: a successful
completion, the fast-fail `"AI temporarily unavailable (circuit open)"`
throw, or the rethrow after both providers failed. -/
inductive CallOutcome
  | ok
  | circuitOpen
  | bothFailed
deriving DecidableEq, Repr

/-- Whether the primary (DeepSeek) and fallback (OpenAI) provider would
succeed if attempted during one call.  The providers are external
collaborators, so their outcome is an oracle. -/
structure ProviderBehavior where
  primaryOk : Bool
  fallbackOk : Bool
deriving DecidableEq, Repr

/-- The breaker check at the top of `callWithBreaker` (`api.js:1209-1218`).
Returns `none` when the call fast-fails because the circuit is open and
the reset window has not elapsed; otherwise returns the (possibly
half-opened) state in which the providers are then attempted. -/
def checkBreaker (b : Breaker) (now : Nat) : Option Breaker :=
  if b.state = CBState.OPEN then
    if now - b.lastFailureTime < CIRCUIT_BREAKER_RESET_TIME then
      none
    else
      some { b with state := CBState.HALF_OPEN }
  else
    some b

/-- The provider-attempt part of `callWithBreaker` (`api.js:1220-1251`):
try DeepSeek; on success reset the counter and close the breaker; on
failure increment the counter, record the failure time, trip the breaker
at the threshold, then try the OpenAI fallback, which on success also
resets the counter and closes the breaker. -/
def attemptProviders (b : Breaker) (now : Nat) (p : ProviderBehavior) :
    CallOutcome × Breaker :=
  if p.primaryOk then
    (CallOutcome.ok, { b with failureCount := 0, state := CBState.CLOSED })
  else
    let fc := b.failureCount + 1
    let b1 : Breaker :=
      { state := if CIRCUIT_BREAKER_THRESHOLD ≤ fc then CBState.OPEN else b.state,
        failureCount := fc,
        lastFailureTime := now }
    if p.fallbackOk then
      (CallOutcome.ok, { b1 with failureCount := 0, state := CBState.CLOSED })
    else
      (CallOutcome.bothFailed, b1)

/-- One whole `callWithBreaker` invocation (`api.js:1207-1252`) at time
`now` with provider behavior `p`. -/
def callWithBreaker (b : Breaker) (now : Nat) (p : ProviderBehavior) :
    CallOutcome × Breaker :=
  match checkBreaker b now with
  | none => (CallOutcome.circuitOpen, b)
  | some b1 => attemptProviders b1 now p

/-- The initial module state: `'CLOSED'`, counter `0` (`api.js:1200-1202`). -/
def initBreaker : Breaker := ⟨CBState.CLOSED, 0, 0⟩

/-- A call in which the primary fails and the fallback fails too. -/
def allFail : ProviderBehavior := ⟨false, false⟩

/-- Breaker states reachable from the initial state by completion calls.
Besides whole-call steps we include the state after the breaker check
(`checkBreaker`): in the source the `HALF_OPEN` value is stored into the
process-wide variable before the provider is awaited, so it is a real
observable state of the program. -/
inductive ReachableBreaker : Breaker → Prop
  | init : ReachableBreaker initBreaker
  | step (b : Breaker) (now : Nat) (p : ProviderBehavior) :
      ReachableBreaker b → ReachableBreaker (callWithBreaker b now p).2
  | stepCheck (b b1 : Breaker) (now : Nat) :
      ReachableBreaker b → checkBreaker b now = some b1 → ReachableBreaker b1

/-- `checkBreaker` never changes the failure counter. -/
theorem checkBreaker_failureCount (b b1 : Breaker) (now : Nat)
    (h : checkBreaker b now = some b1) : b1.failureCount = b.failureCount := by
  unfold checkBreaker at h
  split at h
  · split at h
    · exact Option.noConfusion h
    · injection h with h1
      subst h1
      rfl
  · injection h with h1
    subst h1
    rfl

/-- `checkBreaker` preserves the counter invariant: if the pre-state
satisfies it, so does the state handed to the provider attempt. -/
theorem breaker_inv_check (b b1 : Breaker) (now : Nat)
    (h : checkBreaker b now = some b1)
    (ih : b.state = CBState.OPEN ∨ b.state = CBState.HALF_OPEN →
      CIRCUIT_BREAKER_THRESHOLD ≤ b.failureCount) :
    b1.state = CBState.OPEN ∨ b1.state = CBState.HALF_OPEN →
      CIRCUIT_BREAKER_THRESHOLD ≤ b1.failureCount := by
  unfold checkBreaker at h
  split at h
  · next hb =>
    split at h
    · exact Option.noConfusion h
    · injection h with h1
      subst h1
      intro _
      exact ih (Or.inl hb)
  · injection h with h1
    subst h1
    exact ih

/-- A whole call preserves the counter invariant. -/
theorem breaker_inv_step (b : Breaker) (now : Nat) (p : ProviderBehavior)
    (ih : b.state = CBState.OPEN ∨ b.state = CBState.HALF_OPEN →
      CIRCUIT_BREAKER_THRESHOLD ≤ b.failureCount) :
    (callWithBreaker b now p).2.state = CBState.OPEN ∨
      (callWithBreaker b now p).2.state = CBState.HALF_OPEN →
      CIRCUIT_BREAKER_THRESHOLD ≤ (callWithBreaker b now p).2.failureCount := by
  unfold callWithBreaker
  rcases hc : checkBreaker b now with _ | b1
  · exact ih
  · have ih1 := breaker_inv_check b b1 now hc ih
    unfold attemptProviders
    by_cases hp : p.primaryOk
    · simp [hp]
    · by_cases hf : p.fallbackOk
      · simp [hp, hf]
      · simp only [hp, hf, Bool.false_eq_true, if_false]
        by_cases hfc : CIRCUIT_BREAKER_THRESHOLD ≤ b1.failureCount + 1
        · intro _
          exact hfc
        · simp only [hfc, if_false]
          intro hst
          have := ih1 hst
          omega

/-- C10: Invariant of the circuit-breaker state machine, starting from
`CLOSED` with failure counter `0`: in every reachable state, if the
breaker is `OPEN` or `HALF_OPEN` then the failure counter is at least the
threshold `3`; and within any single call, the failure counter is reset
to `0` only by the transition that simultaneously sets the state to
`CLOSED`. -/
theorem breaker_counter_invariant :
    (∀ b : Breaker, ReachableBreaker b →
      b.state = CBState.OPEN ∨ b.state = CBState.HALF_OPEN →
      CIRCUIT_BREAKER_THRESHOLD ≤ b.failureCount) ∧
    (∀ (b : Breaker) (now : Nat) (p : ProviderBehavior),
      (callWithBreaker b now p).2.failureCount = 0 →
      b.failureCount ≠ 0 →
      (callWithBreaker b now p).2.state = CBState.CLOSED) := by
  constructor
  · intro b hreach
    induction hreach with
    | init =>
      intro h
      rcases h with h | h <;> exact CBState.noConfusion h
    | step b now p _ ih => exact breaker_inv_step b now p ih
    | stepCheck b b1 now _ hc ih => exact breaker_inv_check b b1 now hc ih
  · intro b now p h0 hne
    unfold callWithBreaker at h0 ⊢
    rcases hc : checkBreaker b now with _ | b1
    · rw [hc] at h0
      exact absurd h0 hne
    · rw [hc] at h0
      have hcount := checkBreaker_failureCount b b1 now hc
      unfold attemptProviders at h0 ⊢
      by_cases hp : p.primaryOk
      · simp [hp]
      · by_cases hf : p.fallbackOk
        · simp [hp, hf]
        · simp [hp, hf] at h0

/-- Witness for `breaker_counter_invariant`: after three fully failing
calls the breaker is `OPEN` with counter `3 ≥ 3`, and a successful call
from `CLOSED` with counter `2` resets to `0` together with `CLOSED`. -/
theorem breaker_counter_invariant_witness :
    CIRCUIT_BREAKER_THRESHOLD ≤
      ((callWithBreaker (callWithBreaker (callWithBreaker initBreaker 10 allFail).2
        20 allFail).2 30 allFail).2).failureCount ∧
    (callWithBreaker ⟨CBState.CLOSED, 2, 0⟩ 50 ⟨true, false⟩).2.state = CBState.CLOSED := by
  constructor
  · exact breaker_counter_invariant.1 _
      (ReachableBreaker.step _ 30 allFail (ReachableBreaker.step _ 20 allFail
        (ReachableBreaker.step _ 10 allFail ReachableBreaker.init)))
      (Or.inl (by decide))
  · exact breaker_counter_invariant.2 ⟨CBState.CLOSED, 2, 0⟩ 50 ⟨true, false⟩
      (by decide) (by decide)

/-- C1: Lifecycle of the shared circuit breaker.  Starting from `CLOSED`
with counter `0`, over any sequence of calls in which the primary fails
(and, these calls failing as a whole, the fallback fails too — a call
whose fallback succeeds resets the breaker, spec section 4.1 step 4), the
breaker opens exactly at the third call, the call on which the counter
first reaches the threshold 3; while `OPEN` and within the 30-second
reset window every call fast-fails with no provider attempt and leaves
the state untouched; the first call after the window elapses moves the
breaker to `HALF_OPEN` before the providers are attempted; and any
provider success on an attempted call returns the breaker to `CLOSED`
with the counter reset to `0`. -/
theorem circuit_breaker_lifecycle :
    (∀ t1 t2 t3 : Nat,
      ((callWithBreaker initBreaker t1 allFail).2.state = CBState.CLOSED ∧
        (callWithBreaker initBreaker t1 allFail).2.failureCount = 1) ∧
      ((callWithBreaker (callWithBreaker initBreaker t1 allFail).2 t2 allFail).2.state
          = CBState.CLOSED ∧
        (callWithBreaker (callWithBreaker initBreaker t1 allFail).2 t2 allFail).2.failureCount
          = 2) ∧
      ((callWithBreaker (callWithBreaker (callWithBreaker initBreaker t1 allFail).2
          t2 allFail).2 t3 allFail).2.state = CBState.OPEN ∧
        (callWithBreaker (callWithBreaker (callWithBreaker initBreaker t1 allFail).2
          t2 allFail).2 t3 allFail).2.failureCount = 3)) ∧
    (∀ (b : Breaker) (now : Nat) (p : ProviderBehavior),
      b.state = CBState.OPEN →
      now - b.lastFailureTime < CIRCUIT_BREAKER_RESET_TIME →
      callWithBreaker b now p = (CallOutcome.circuitOpen, b)) ∧
    (∀ (b : Breaker) (now : Nat) (p : ProviderBehavior),
      b.state = CBState.OPEN →
      CIRCUIT_BREAKER_RESET_TIME ≤ now - b.lastFailureTime →
      checkBreaker b now = some { b with state := CBState.HALF_OPEN } ∧
      callWithBreaker b now p =
        attemptProviders { b with state := CBState.HALF_OPEN } now p) ∧
    (∀ (b b1 : Breaker) (now : Nat) (p : ProviderBehavior),
      checkBreaker b now = some b1 →
      p.primaryOk = true ∨ p.fallbackOk = true →
      (callWithBreaker b now p).1 = CallOutcome.ok ∧
      (callWithBreaker b now p).2.state = CBState.CLOSED ∧
      (callWithBreaker b now p).2.failureCount = 0) := by
  refine ⟨?_, ?_, ?_, ?_⟩
  · intro t1 t2 t3
    exact ⟨⟨rfl, rfl⟩, ⟨rfl, rfl⟩, ⟨rfl, rfl⟩⟩
  · intro b now p h1 h2
    unfold callWithBreaker checkBreaker
    rw [if_pos h1, if_pos h2]
  · intro b now p h1 h2
    have hck : checkBreaker b now = some { b with state := CBState.HALF_OPEN } := by
      unfold checkBreaker
      rw [if_pos h1, if_neg (Nat.not_lt.mpr h2)]
    refine ⟨hck, ?_⟩
    unfold callWithBreaker
    rw [hck]
  · intro b b1 now p hck hok
    unfold callWithBreaker
    rw [hck]
    unfold attemptProviders
    by_cases hp : p.primaryOk
    · simp [hp]
    · have hf : p.fallbackOk = true := by
        rcases hok with h | h
        · exact absurd h hp
        · exact h
      simp [hp, hf]

/-- Witness for `circuit_breaker_lifecycle` at concrete inputs: the
three-failure run at times 10, 20, 30; a fast-fail from `OPEN` at elapsed
time 100 ms; the half-open transition at exactly 30000 ms; and a reset to
`CLOSED`/`0` on a successful attempt from `HALF_OPEN`. -/
theorem circuit_breaker_lifecycle_witness :
    (callWithBreaker (callWithBreaker (callWithBreaker initBreaker 10 allFail).2
      20 allFail).2 30 allFail).2.state = CBState.OPEN ∧
    callWithBreaker ⟨CBState.OPEN, 3, 0⟩ 100 ⟨true, true⟩ =
      (CallOutcome.circuitOpen, ⟨CBState.OPEN, 3, 0⟩) ∧
    checkBreaker ⟨CBState.OPEN, 3, 0⟩ 30000 = some ⟨CBState.HALF_OPEN, 3, 0⟩ ∧
    (callWithBreaker ⟨CBState.HALF_OPEN, 3, 5⟩ 40000 ⟨true, false⟩).2.state
        = CBState.CLOSED ∧
    (callWithBreaker ⟨CBState.HALF_OPEN, 3, 5⟩ 40000 ⟨true, false⟩).2.failureCount = 0 := by
  refine ⟨?_, ?_, ?_, ?_, ?_⟩
  · exact ((circuit_breaker_lifecycle.1 10 20 30).2.2).1
  · exact circuit_breaker_lifecycle.2.1 ⟨CBState.OPEN, 3, 0⟩ 100 ⟨true, true⟩
      (by decide) (by decide)
  · exact (circuit_breaker_lifecycle.2.2.1 ⟨CBState.OPEN, 3, 0⟩ 30000 ⟨true, true⟩
      (by decide) (by decide)).1
  · exact (circuit_breaker_lifecycle.2.2.2 ⟨CBState.HALF_OPEN, 3, 5⟩
      ⟨CBState.HALF_OPEN, 3, 5⟩ 40000 ⟨true, false⟩ (by decide) (Or.inl (by decide))).2.1
  · exact (circuit_breaker_lifecycle.2.2.2 ⟨CBState.HALF_OPEN, 3, 5⟩
      ⟨CBState.HALF_OPEN, 3, 5⟩ 40000 ⟨true, false⟩ (by decide) (Or.inl (by decide))).2.2

/-! ## String primitives of the JavaScript runtime

The source manipulates strings with `toLowerCase`, `trim`, `includes`,
`startsWith`-style anchored regexes and template literals.  We model them
over the character list of a `String`, matching their behaviour on the
ASCII text the program works with. -/

/-- `listHasPrefix pat l` : does `l` start with `pat`? -/
def listHasPrefix : List Char → List Char → Bool
  | [], _ => true
  | _ :: _, [] => false
  | a :: as, b :: bs => a == b && listHasPrefix as bs

/-- `scanSubstr pat l` : does `pat` occur in `l` as a contiguous block? -/
def scanSubstr (pat : List Char) : List Char → Bool
  | [] => listHasPrefix pat []
  | c :: rest => listHasPrefix pat (c :: rest) || scanSubstr pat rest

/-- JavaScript `s.includes(pat)`. -/
def jsIncludes (s pat : String) : Bool := scanSubstr pat.toList s.toList

/-- JavaScript `s.startsWith(pat)` / an anchored `^pat` regex. -/
def jsStartsWith (s pat : String) : Bool := listHasPrefix pat.toList s.toList

/-- JavaScript `s.toLowerCase()` (ASCII). -/
def jsToLower (s : String) : String := String.mk (s.toList.map Char.toLower)

/-- Whitespace characters removed by JavaScript `trim()` on this data. -/
def isWsChar (c : Char) : Bool := c == ' ' || c == '\t' || c == '\n' || c == '\r'

/-- JavaScript `s.trim()`. -/
def jsTrim (s : String) : String :=
  String.mk (((s.toList.dropWhile isWsChar).reverse.dropWhile isWsChar).reverse)

/-- JavaScript `x || d` on an optional string slot, with `null`,
`undefined` and `""` all falsy. -/
def jsOrStr (o : Option String) (d : String) : String :=
  match o with
  | some s => if s == "" then d else s
  | none => d

/-! ## Conversation data model -/

/-- One conversation turn as replayed to the orchestrator: a role
(`user`/`assistant`) and text content. -/
structure Turn where
  role : String
  content : String
deriving DecidableEq, Repr

/-- The optional entity bag attached to an intent.  The source only ever
reads `entities?.isFollowUp` and writes `{ isFollowUp: true, context:
'troubleshooting' }`; an absent bag is the empty one. -/
structure Entities where
  isFollowUp : Bool := false
  context : Option String := none
deriving DecidableEq, Repr

/-- A classified intent: `{ primary, confidence, entities }`. -/
structure Intent where
  primary : String
  confidence : Rat
  entities : Entities := {}
deriving DecidableEq, Repr

/-- A UI action attached to a response.  The source builds plain objects
with a `type` tag plus payload fields; we keep the fields the
orchestration logic reads or writes. -/
structure UIAction where
  typ : String
  suggestions : List String := []
  field : String := ""
  placeholder : String := ""
  products : List String := []
  buttons : List String := []
  steps : List String := []
  videoUrl : String := ""
  pdfUrl : String := ""
  estimatedTime : String := ""
  difficulty : String := ""
  tools : List String := []
deriving DecidableEq, Repr

/-- The uniform handler output `{ message, products?, actions? }`.
JavaScript leaves `products`/`actions` `undefined` on some handlers; the
orchestrator normalizes both with `|| []` and `?.some`, so the empty list
is an exact model of the absent field. -/
structure AgentResponse where
  message : String
  products : List String := []
  actions : List UIAction := []
deriving DecidableEq, Repr

/-- The per-user session context slots read or written by the
orchestration core (`context:` keys in Redis). -/
structure SessionContext where
  lastPart : Option String := none
  lastModel : Option String := none
  expecting : Option String := none
  lastIntent : Option String := none
  lastTopic : Option String := none
deriving DecidableEq, Repr

/-- The flow analyzer's result `{ stage, topic }`. -/
structure FlowContext where
  stage : String
  topic : Option String
deriving DecidableEq, Repr

/-- `history.slice().reverse().find(h => h.role === 'assistant')`. -/
def lastAssistantOf (history : List Turn) : Option Turn :=
  history.reverse.find? fun h => h.role == "assistant"

/-- `getConversationContext` (`api.js:110-136`): derive the current
stage/topic from the last assistant turn of the 5 most recent messages. -/
def getConversationContext (history : List Turn) : FlowContext :=
  if history.length == 0 then ⟨"initial", none⟩
  else
    let recentMessages := history.drop (history.length - 5)
    match lastAssistantOf recentMessages with
    | none => ⟨"initial", none⟩
    | some lastAssistant =>
      let content := jsToLower lastAssistant.content
      if jsIncludes content "step" || jsIncludes content "troubleshoot" then
        ⟨"diagnostic_given", some "troubleshooting"⟩
      else if jsIncludes content "compatible" || jsIncludes content "model" then
        ⟨"ongoing", some "compatibility"⟩
      else if jsIncludes content "install" then
        ⟨"ongoing", some "installation"⟩
      else if jsIncludes content "part" && jsIncludes content "$" then
        ⟨"ongoing", some "product_recommendation"⟩
      else
        ⟨"ongoing", none⟩

/-! ## Intent classification (`api.js:314-378`) -/

/-- The anchored case-insensitive regex
`/^(should|would|do i|can i|is it|what if)/i` applied to `query.trim()`
(`api.js:319,323`). -/
def questioningTest (query : String) : Bool :=
  let t := jsToLower (jsTrim query)
  jsStartsWith t "should" || jsStartsWith t "would" || jsStartsWith t "do i" ||
    jsStartsWith t "can i" || jsStartsWith t "is it" || jsStartsWith t "what if"

/-- The fast-path condition of `classify` (`api.js:323-338`): a
questioning utterance whose most recent assistant turn has truthy content
containing `step` or `troubleshoot`. -/
def followUpFastPath (query : String) (history : List Turn) : Bool :=
  questioningTest query &&
    match lastAssistantOf history with
    | some lastAssistant =>
      lastAssistant.content != "" &&
        (jsIncludes (jsToLower lastAssistant.content) "step" ||
          jsIncludes (jsToLower lastAssistant.content) "troubleshoot")
    | none => false

/-- The fallback intent returned when `JSON.parse` fails
(`api.js:375`). -/
def fallbackIntent : Intent := ⟨"general_question", 0.5, {}⟩

/-- The fast-path intent (`api.js:331-335`). -/
def fastPathIntent : Intent :=
  ⟨"general_question", 0.85, ⟨true, some "troubleshooting"⟩⟩

/-- A classification outcome together with whether the completion
provider was invoked to produce it. -/
structure ClassifyResult where
  intent : Intent
  providerCalled : Bool
deriving DecidableEq, Repr

/-- `IntentClassificationAgent.classify` (`api.js:315-377`).
`providerResult` is the outcome `callWithBreaker` would yield for the
classification prompt (an exception propagates out of `classify`
untouched); `parse` models the JS builtin `JSON.parse` applied to the
provider text, `none` meaning the text is not parseable. -/
def classify (query : String) (history : List Turn)
    (providerResult : Except Unit String) (parse : String → Option Intent) :
    Except Unit ClassifyResult :=
  if followUpFastPath query history then
    Except.ok ⟨fastPathIntent, false⟩
  else
    match providerResult with
    | Except.error e => Except.error e
    | Except.ok response =>
      match parse response with
      | some intent => Except.ok ⟨intent, true⟩
      | none => Except.ok ⟨fallbackIntent, true⟩

/-! ## Response formatting (`api.js:220-277`) -/

/-- The action types treated as pending input/choice prompts by
`shouldOfferCompletion` (`api.js:251-255`). -/
def isInputAction (a : UIAction) : Bool :=
  a.typ == "input_prompt" || a.typ == "button_group" || a.typ == "next_steps"

/-- `agentResponse.actions?.some(...)` over the input/choice types. -/
def hasInputPrompt (r : AgentResponse) : Bool := r.actions.any isInputAction

/-- A completion-offer action. -/
def isCompletionAction (a : UIAction) : Bool := a.typ == "conversation_completion"

/-- The fixed list of closing phrases (`api.js:261-274`). -/
def completionIndicators : List String :=
  ["you\x27re welcome",
   "you\x27re very welcome",
   "glad i could help",
   "happy to help",
   "let me know if you need",
   "any other questions",
   "anything else",
   "feel free to",
   "good luck with the repair",
   "good luck with",
   "hope this helps",
   "if you run into any other issues"]

/-- `AgentOrchestrator.shouldOfferCompletion` (`api.js:247-277`). -/
def shouldOfferCompletion (r : AgentResponse) : Bool :=
  let message := jsToLower r.message
  if hasInputPrompt r then false
  else completionIndicators.any fun indicator => jsIncludes message indicator

/-- The completion-offer action pushed by `formatResponse`
(`api.js:233-240`). -/
def completionAction : UIAction :=
  { typ := "conversation_completion",
    suggestions := ["Find another part", "Ask something else", "Start new chat"] }

/-- The response envelope returned to the transport layer:
`{ message, products, actions, metadata: { intent, confidence } }`. -/
structure ChatResponse where
  message : String
  products : List String
  actions : List UIAction
  intent : String
  confidence : Rat
deriving DecidableEq, Repr

/-- `AgentOrchestrator.formatResponse` (`api.js:220-244`). -/
def formatResponse (agentResponse : AgentResponse) (intent : Intent) : ChatResponse :=
  let response : ChatResponse :=
    ⟨agentResponse.message, agentResponse.products, agentResponse.actions,
      intent.primary, intent.confidence⟩
  if shouldOfferCompletion agentResponse then
    { response with actions := response.actions ++ [completionAction] }
  else
    response

/-! ## Session-context store (`api.js:62-92`) and routing (`api.js:152-218`) -/

/-- The state of the Redis collaborator for one user: whether the cache
is reachable, and the stored context (if any). -/
structure CacheEnv where
  cacheUp : Bool
  stored : Option SessionContext
deriving DecidableEq, Repr

/-- `getUserContext` (`api.js:62-65`): `redis.get` directly — with no
try/catch — then `JSON.parse(data)` if present, `{}` if absent.  When the
cache is unreachable the `redis.get` rejection propagates to the
caller. -/
def getUserContext (env : CacheEnv) : Except Unit SessionContext :=
  if env.cacheUp then Except.ok (env.stored.getD {}) else Except.error ()

/-- `setUserContext` (`api.js:67-69`): `redis.set` directly, again with
no try/catch; an unreachable cache rejects. -/
def setUserContext (env : CacheEnv) (_context : SessionContext) : Except Unit Unit :=
  if env.cacheUp then Except.ok () else Except.error ()

/-- `safeRedisGet` (`api.js:76-84`): the guarded cache read used by the
product/compatibility caches — it catches the rejection and returns
`null`.  `stored` is the raw cached string for the key. -/
def safeRedisGet (cacheUp : Bool) (stored : Option String) : Option String :=
  if cacheUp then stored else none

/-- `safeRedisSet` (`api.js:86-92`): the guarded cache write; returns
whether the value was actually written (`false` when the rejection was
swallowed). -/
def safeRedisSet (cacheUp : Bool) : Bool :=
  cacheUp

/-- The domain handlers, as consumed by `routeToAgents`: each takes the
effective query, the (possibly rewritten) context and the history and
either returns an `AgentResponse` or raises.  The compatibility handler
additionally receives the user id. -/
structure Handlers where
  product : String → SessionContext → List Turn → Except Unit AgentResponse
  compatibility : String → SessionContext → List Turn → String → Except Unit AgentResponse
  troubleshooting : String → SessionContext → List Turn → Except Unit AgentResponse
  installation : String → SessionContext → List Turn → Except Unit AgentResponse
  order : String → SessionContext → List Turn → Except Unit AgentResponse
  general : String → List Turn → Except Unit AgentResponse

/-- The `switch (intent.primary)` of `routeToAgents` (`api.js:186-214`).
The `default` branch calls `this.handleOutOfScope(query)`; no method of
that name is defined anywhere on `AgentOrchestrator` (its only occurrence
in the repository is this call site), so in JavaScript the call raises
`TypeError: this.handleOutOfScope is not a function` — modelled as a
raise. -/
def selectHandler (h : Handlers) (primary : String) (query : String)
    (context : SessionContext) (history : List Turn) (userId : String) :
    Except Unit AgentResponse :=
  if primary == "product_search" then h.product query context history
  else if primary == "compatibility_check" then h.compatibility query context history userId
  else if primary == "troubleshooting" then h.troubleshooting query context history
  else if primary == "installation_help" then h.installation query context history
  else if primary == "order_support" then h.order query context history
  else if primary == "general_question" then h.general query history
  else Except.error ()

/-- `AgentOrchestrator.routeToAgents` (`api.js:165-218`).  Returns the
handler response together with the list of successive `setUserContext`
payloads written during routing (in order). -/
def routeToAgents (h : Handlers) (env : CacheEnv) (intent : Intent)
    (query : String) (userId : String) (history : List Turn) :
    Except Unit (AgentResponse × List SessionContext) := do
  let context ← getUserContext env
  let flowContext := getConversationContext history
  if intent.entities.isFollowUp && (flowContext.topic == some "troubleshooting") then
    let r ← h.general query history
    return (r, [])
  else
    let (intent1, query1, context1, writes1) ←
      if context.expecting == some "model_number_for_compat" then do
        let query1 := jsTrim (jsOrStr context.lastPart "" ++ " " ++ query)
        let context1 := { context with expecting := none }
        let _ ← setUserContext env context1
        pure ({ intent with primary := "compatibility_check" }, query1, context1,
          [context1])
      else
        pure (intent, query, context, [])
    let response ← selectHandler h intent1.primary query1 context1 history userId
    let merged := { context1 with lastIntent := some intent1.primary,
                                  lastTopic := flowContext.topic }
    let _ ← setUserContext env merged
    return (response, writes1 ++ [merged])

/-- `AgentOrchestrator.processQuery` (`api.js:152-163`): classify, route,
format.  There is no try/catch at this layer; any raise from `classify`
or `routeToAgents` propagates to the caller (the Express route). -/
def processQuery (h : Handlers) (env : CacheEnv)
    (providerResult : Except Unit String) (parse : String → Option Intent)
    (userId : String) (query : String) (history : List Turn) :
    Except Unit ChatResponse := do
  let c ← classify query history providerResult parse
  let (response, _) ← routeToAgents h env c.intent query userId history
  return formatResponse response c.intent

/-! ## Troubleshooting handler (`api.js:868-1057`) -/

/-- The parsed (or defaulted) diagnosis object used by the
troubleshooting agent. -/
structure Analysis where
  likelyCause : Option String := none
  steps : List String := []
  parts : List String := []
  difficulty : String := "medium"
deriving DecidableEq, Repr

/-- Matches `step \d:` at the head of a (lowered) character list. -/
def stepDigitColonAt : List Char → Bool
  | 's' :: 't' :: 'e' :: 'p' :: ' ' :: d :: ':' :: _ => d.isDigit
  | _ => false

/-- Scans for `step \d:` anywhere in a character list. -/
def hasStepDigitColon : List Char → Bool
  | [] => false
  | c :: rest => stepDigitColonAt (c :: rest) || hasStepDigitColon rest

/-- The regex `/Step \d:|Troubleshooting Steps:/i` (`api.js:878`). -/
def testStepPattern (content : String) : Bool :=
  hasStepDigitColon (jsToLower content).toList ||
    jsIncludes (jsToLower content) "troubleshooting steps:"

/-- `detectUserProgress` (`api.js:868-883`): `shouldSkipToSolution`. -/
def detectUserProgress (query : String) (history : List Turn) : Bool :=
  let q := jsToLower query
  let hasCompletedCheck :=
    ["checked", "tested", "tried", "looked at", "inspected", "verified",
      "found", "discovered"].any fun w => jsIncludes q w
  let foundIssue :=
    ["broke", "broken", "damaged", "cracked", "leaking", "not working",
      "failed", "bad", "worn"].any fun w => jsIncludes q w
  let wasGivingSteps :=
    match lastAssistantOf history with
    | some lastAssistant => testStepPattern lastAssistant.content
    | none => false
  hasCompletedCheck && foundIssue && wasGivingSteps

/-- Outcomes of the troubleshooting agent's downstream collaborators:
the two `callWithBreaker` prompts, the `JSON.parse` of the analysis, and
the embeddings+database block inside `findRelevantParts` (its rows mapped
to product references). -/
structure TroubleshootEnv where
  providerAnalyze : Except Unit String
  providerSolution : Except Unit String
  parseAnalysis : String → Option Analysis
  relevantParts : Except Unit (List String)

/-- `TroubleshootingAgent.analyzeProblem` (`api.js:911-949`): the
`callWithBreaker` rejection propagates; a `JSON.parse` failure is caught
and defaulted. -/
def analyzeProblem (env : TroubleshootEnv) : Except Unit Analysis :=
  match env.providerAnalyze with
  | Except.error e => Except.error e
  | Except.ok response =>
    match env.parseAnalysis response with
    | some analysis => Except.ok analysis
    | none => Except.ok ⟨some "Unknown", [], [], "medium"⟩

/-- `cause.split(/[.?!]/)[0]` (`api.js:953`). -/
def firstSentenceOf (s : String) : String :=
  String.mk (s.toList.takeWhile fun c => !(c == '.' || c == '?' || c == '!'))

/-- `(analysis.steps || []).map((step, i) => ...).join('\n')`
(`api.js:960`). -/
def numberSteps (steps : List String) : String :=
  String.intercalate "\n"
    (((List.range steps.length).zip steps).map fun p => toString (p.1 + 1) ++ ". " ++ p.2)

/-- `TroubleshootingAgent.generateTroubleshootingGuide`
(`api.js:951-963`). -/
def generateTroubleshootingGuide (analysis : Analysis) : String :=
  let cause := jsOrStr analysis.likelyCause "Unknown"
  let conciseCause := jsTrim (firstSentenceOf cause)
  "Based on the symptoms, this sounds like " ++ jsToLower conciseCause ++
    ".\n\n  Here\x27s what I recommend checking:\n\n  " ++
    numberSteps analysis.steps ++
    "\n\n  Try these steps and let me know what you find! I\x27m here if you need help with any of them."

/-- `TroubleshootingAgent.findRelevantParts` (`api.js:965-1010`): its
whole body is wrapped in try/catch returning `[]`, and an empty search
text short-circuits to `[]`. -/
def findRelevantParts (env : TroubleshootEnv) (analysis : Analysis) : List String :=
  let searchText :=
    String.intercalate " " (jsOrStr analysis.likelyCause "" :: analysis.parts)
  if jsTrim searchText == "" then []
  else
    match env.relevantParts with
    | Except.ok ps => ps
    | Except.error _ => []

/-- The `next_steps` action of `provideSolution` (`api.js:1046-1053`). -/
def nextStepsAction : UIAction :=
  { typ := "next_steps",
    buttons := ["Find this part", "Ask another question", "Start fresh chat"] }

/-- `TroubleshootingAgent.provideSolution` (`api.js:1012-1056`): the
`callWithBreaker` call has no catch, so a provider failure propagates. -/
def provideSolution (env : TroubleshootEnv) : Except Unit AgentResponse := do
  let response ← env.providerSolution
  let analysis ← analyzeProblem env
  let suggestedParts :=
    if analysis.parts.length > 0 then findRelevantParts env analysis else []
  pure ⟨response, suggestedParts,
    (if suggestedParts.length > 0 then
      [{ typ := "product_cards", products := suggestedParts.take 3 }]
    else []) ++ [nextStepsAction]⟩

/-- `TroubleshootingAgent.diagnose` (`api.js:886-909`): no try/catch
around `analyzeProblem`/`provideSolution`, so a provider failure
propagates out of the handler. -/
def diagnose (env : TroubleshootEnv) (query : String) (history : List Turn) :
    Except Unit AgentResponse := do
  if detectUserProgress query history then
    provideSolution env
  else
    let analysis ← analyzeProblem env
    let guide := generateTroubleshootingGuide analysis
    let suggestedParts :=
      if analysis.parts.length > 0 then findRelevantParts env analysis else []
    pure ⟨guide, suggestedParts, [{ typ := "troubleshooting_wizard", steps := analysis.steps }]⟩

/-! ## Installation handler (`api.js:1060-1118`) -/

/-- Grabs exactly `n` leading digits. -/
def grabDigits : Nat → List Char → Option (List Char)
  | 0, _ => some []
  | _ + 1, [] => none
  | n + 1, c :: rest =>
    if c.isDigit then (grabDigits n rest).map (c :: ·) else none

/-- Matches `PS\d{8}` (case-insensitive) at the head of a list. -/
def matchPS8 : List Char → Option (List Char)
  | p :: s :: rest =>
    if (p == 'p' || p == 'P') && (s == 's' || s == 'S') then
      (grabDigits 8 rest).map fun ds => p :: s :: ds
    else none
  | _ => none

/-- JavaScript regex word characters, for the `\b` boundary. -/
def isWordChar (c : Char) : Bool := c.isAlphanum || c == '_'

/-- Leftmost match of `/PS\d{8}|\b\d{8}\b/i` (`api.js:1086`), scanning
with the previous character to decide the left word boundary. -/
def scanPartNumber (prev : Option Char) : List Char → Option (List Char)
  | [] => none
  | c :: rest =>
    match matchPS8 (c :: rest) with
    | some m => some m
    | none =>
      let leftBoundary := match prev with | none => true | some p => !isWordChar p
      match (if leftBoundary then grabDigits 8 (c :: rest) else none) with
      | some ds =>
        match (c :: rest).drop 8 with
        | [] => some ds
        | a :: _ =>
          if isWordChar a then scanPartNumber (some c) rest else some ds
      | none => scanPartNumber (some c) rest

/-- `InstallationAgent.extractPartInfo` (`api.js:1085-1090`): the matched
part number, uppercased. -/
def extractPartInfo (query : String) : Option String :=
  (scanPartNumber none query.toList).map fun l => String.mk (l.map Char.toUpper)

/-- `InstallationAgent.getInstallationGuide` (`api.js:1092-1118`): calls
`callWithBreaker` with no catch, then wraps the text in a static guide
record. -/
def getInstallationGuide (provider : Except Unit String) (partNumber : String) :
    Except Unit (String × UIAction) := do
  let instructions ← provider
  pure (instructions,
    { typ := "installation_guide",
      videoUrl := "https://partselect.com/videos/" ++ partNumber,
      pdfUrl := "https://partselect.com/guides/" ++ partNumber ++ ".pdf",
      estimatedTime := "30-45 minutes",
      difficulty := "Medium",
      tools := ["Phillips screwdriver", "Flathead screwdriver", "Pliers"] })

/-- `InstallationAgent.guide` (`api.js:1061-1083`): without a part number
it asks for one; with a part number it awaits the provider-generated
guide with no catch, so a provider failure propagates out of the
handler. -/
def installationGuide (provider : Except Unit String) (query : String) :
    Except Unit AgentResponse := do
  match extractPartInfo query with
  | none =>
    pure ⟨"I\x27d be happy to help with installation! Which part are you installing? Please provide the part number (e.g., PS11752778).", [], []⟩
  | some partNumber =>
    let installGuide ← getInstallationGuide provider partNumber
    pure ⟨installGuide.1, [], [installGuide.2]⟩

/-! ## Concrete fixtures shared by several results -/

/-- Handlers that tag the response with which handler received which
effective query, so routing decisions are observable. -/
def markerHandlers : Handlers :=
  { product := fun q _ _ => Except.ok ⟨"product:" ++ q, [], []⟩,
    compatibility := fun q _ _ _ => Except.ok ⟨"compat:" ++ q, [], []⟩,
    troubleshooting := fun q _ _ => Except.ok ⟨"troubleshooting:" ++ q, [], []⟩,
    installation := fun q _ _ => Except.ok ⟨"installation:" ++ q, [], []⟩,
    order := fun q _ _ => Except.ok ⟨"order:" ++ q, [], []⟩,
    general := fun q _ => Except.ok ⟨"general:" ++ q, [], []⟩ }

/-- A collaborator environment in which every downstream call of the
troubleshooting agent fails (providers down, embeddings/database
unreachable, nothing parseable). -/
def downFailEnv : TroubleshootEnv :=
  ⟨Except.error (), Except.error (), fun _ => none, Except.error ()⟩

/-- The marker handlers with the real (embedded) troubleshooting handler
running against failing collaborators. -/
def downTroubleshootingHandlers : Handlers :=
  { markerHandlers with troubleshooting := fun q _ h => diagnose downFailEnv q h }

/-- A parse oracle classifying everything as `troubleshooting`. -/
def troubleshootingParse : String → Option Intent :=
  fun _ => some ⟨"troubleshooting", 0.9, {}⟩

/-- A parse oracle that never parses. -/
def neverParse : String → Option Intent := fun _ => none

/-- C2: the claim says an unreachable session cache degrades reads to an
empty context and silently drops writes, so no orchestrated request
fails because of it.  The code contradicts this: `getUserContext` and
`setUserContext` call `redis` directly with no try/catch (the guarded
`safeRedisGet` exists — and does return `null` on failure — but is only
used for the product/compatibility caches), so the rejection propagates
through `routeToAgents` and the request fails. -/
theorem session_cache_outage_fails_request :
    getUserContext ⟨false, none⟩ = Except.error () ∧
    setUserContext ⟨false, none⟩ {} = Except.error () ∧
    safeRedisGet false (some "cached-context") = none ∧
    routeToAgents markerHandlers ⟨false, none⟩ ⟨"product_search", 0.9, {}⟩
      "need a door bin" "u1" [] = Except.error () :=
  ⟨rfl, rfl, rfl, rfl⟩

/-- C3: the claim says `processQuery` catches any dispatched-handler
exception and converts it to a generic apologetic response.  The code
has no try/catch in `processQuery` or `routeToAgents`: with the
classifier resolving `troubleshooting` and the (real, embedded)
troubleshooting handler failing on its provider call, the error
propagates out of `processQuery` to the transport layer. -/
theorem orchestrator_propagates_handler_error :
    processQuery downTroubleshootingHandlers ⟨true, none⟩ (Except.ok "classified")
      troubleshootingParse "u1" "my fridge is broken" [] = Except.error () :=
  rfl

/-- C8: the claim says unknown/`out_of_scope` intents route to a fixed
out-of-scope responder.  The `default` branch of the dispatch switch
calls `this.handleOutOfScope(query)`, but `AgentOrchestrator` defines no
such method (the call site is its only occurrence in the repository), so
the dispatch raises a `TypeError` instead of returning a response. -/
theorem out_of_scope_dispatch_raises :
    selectHandler markerHandlers "out_of_scope" "tell me a joke" {} [] "u1"
      = Except.error () ∧
    routeToAgents markerHandlers ⟨true, none⟩ ⟨"out_of_scope", 0.9, {}⟩
      "tell me a joke" "u1" [] = Except.error () :=
  ⟨rfl, rfl⟩

/-- C9: the claim says every domain handler returns a generic helpful
response rather than raising when a downstream call fails.  Only the
product-search handler wraps its body in try/catch; the troubleshooting
and installation handlers await `callWithBreaker` with no catch, so with
the providers down both raise. -/
theorem handlers_raise_on_provider_failure :
    diagnose downFailEnv "my fridge is not cooling" [] = Except.error () ∧
    installationGuide (Except.error ()) "how do I install PS11752778"
      = Except.error () :=
  ⟨rfl, rfl⟩

/-- The stored context of the compatibility continuation scenario:
`{ expecting: 'model_number_for_compat', lastPart: 'PS11752778' }`. -/
def compatPendingContext : SessionContext :=
  { lastPart := some "PS11752778", expecting := some "model_number_for_compat" }

/-- A classified intent carrying the follow-up flag. -/
def followUpIntent : Intent := ⟨"troubleshooting", 0.9, ⟨true, none⟩⟩

/-- A history whose last assistant turn reads as troubleshooting. -/
def troubleshootingHistory : List Turn :=
  [⟨"user", "my dishwasher leaks"⟩, ⟨"assistant", "Step 1: check the valve"⟩]

/-- C4 counterexample: with the stored context
`{expecting: model_number_for_compat, lastPart: "PS11752778"}` and the
new utterance `"WDT780SAEM1"`, the claim promises the intent is forced to
`compatibility_check` regardless of the classified intent.  But the
follow-up rule is checked first (`api.js:170-173`): if the classified
intent carries `isFollowUp` and the flow topic is troubleshooting, the
request goes to the general handler with the original query, no context
write happens and `expecting` is not cleared. -/
theorem followup_overrides_compat_continuation :
    routeToAgents markerHandlers ⟨true, some compatPendingContext⟩ followUpIntent
      "WDT780SAEM1" "u1" troubleshootingHistory =
      Except.ok (⟨"general:WDT780SAEM1", [], []⟩, []) :=
  rfl

/-- C4 (amended): provided the follow-up redirection guard does not fire
(the classified intent lacks `isFollowUp`, or the flow topic is not
troubleshooting), a stored context with
`expecting = model_number_for_compat` and `lastPart = "PS11752778"` and
the new utterance `"WDT780SAEM1"` force the resolved intent to
`compatibility_check`: the compatibility handler is invoked with the
effective query `"PS11752778 WDT780SAEM1"` and a context whose
`expecting` slot is already cleared, the cleared context having been
written to the store before dispatch. -/
theorem compat_continuation_forces_intent (h : Handlers) (intent : Intent)
    (history : List Turn) (ctx : SessionContext) (userId : String)
    (hguard : (intent.entities.isFollowUp &&
      ((getConversationContext history).topic == some "troubleshooting")) = false)
    (hexp : ctx.expecting = some "model_number_for_compat")
    (hpart : ctx.lastPart = some "PS11752778") :
    routeToAgents h ⟨true, some ctx⟩ intent "WDT780SAEM1" userId history =
      (h.compatibility "PS11752778 WDT780SAEM1" { ctx with expecting := none }
        history userId).map
        (fun r => (r, [{ ctx with expecting := none },
          { ctx with
             expecting := none,
             lastIntent := some "compatibility_check",
             lastTopic := (getConversationContext history).topic }])) := by
  obtain ⟨lp, lm, ex, li, lt⟩ := ctx
  simp only at hexp hpart
  subst hexp
  subst hpart
  unfold routeToAgents
  simp only [hguard, Bool.false_eq_true, if_false]
  rfl

/-- Witness for `compat_continuation_forces_intent`: with the marker
handlers, a `product_search` classification and an empty history, the
compatibility handler answers for the forced query and both context
writes happen in order. -/
theorem compat_continuation_forces_intent_witness :
    routeToAgents markerHandlers ⟨true, some compatPendingContext⟩
      ⟨"product_search", 0.9, {}⟩ "WDT780SAEM1" "u1" [] =
      Except.ok (⟨"compat:PS11752778 WDT780SAEM1", [], []⟩,
        [{ compatPendingContext with expecting := none },
         { compatPendingContext with
            expecting := none,
            lastIntent := some "compatibility_check",
            lastTopic := none }]) := by
  rw [compat_continuation_forces_intent markerHandlers ⟨"product_search", 0.9, {}⟩ []
    compatPendingContext "u1" rfl rfl rfl]
  rfl

/-- C5: when the classification provider answers but the reply is not
parseable, `classify` returns
`{primary: general_question, confidence: 0.5, entities: {}}` and does not
raise.  (The hypothesis excludes the fast path, on which no provider
reply exists to parse.) -/
theorem classify_parse_failure_defaults (query : String) (history : List Turn)
    (response : String) (parse : String → Option Intent)
    (hfast : followUpFastPath query history = false)
    (hparse : parse response = none) :
    classify query history (Except.ok response) parse =
      Except.ok ⟨fallbackIntent, true⟩ := by
  unfold classify
  rw [hfast]
  simp [hparse]

/-- Witness for `classify_parse_failure_defaults` on the utterance
`"hello there"` with the reply `"not json"` and a parser that fails. -/
theorem classify_parse_failure_defaults_witness :
    classify "hello there" [] (Except.ok "not json") neverParse =
      Except.ok ⟨fallbackIntent, true⟩ :=
  classify_parse_failure_defaults "hello there" [] "not json" neverParse
    (by decide) rfl

/-- C6: a questioning utterance whose most recent assistant turn contains
`step` or `troubleshoot` content is classified on the fast path:
`general_question` at the fixed confidence `0.85` with
`isFollowUp: true`, for every provider outcome and parser — the result
reports `providerCalled = false`, and the provider/parse parameters are
universally quantified, so no completion provider is consulted. -/
theorem classify_followup_fast_path (query : String) (history : List Turn)
    (providerResult : Except Unit String) (parse : String → Option Intent)
    (la : Turn)
    (hq : questioningTest query = true)
    (hla : lastAssistantOf history = some la)
    (hstep : (jsIncludes (jsToLower la.content) "step" ||
      jsIncludes (jsToLower la.content) "troubleshoot") = true) :
    classify query history providerResult parse =
      Except.ok ⟨fastPathIntent, false⟩ := by
  have hcontent : (la.content != "") = true := by
    by_cases hcempty : la.content = ""
    · rw [hcempty] at hstep
      exact absurd hstep (by decide)
    · exact bne_iff_ne.mpr hcempty
  have hfast : followUpFastPath query history = true := by
    unfold followUpFastPath
    rw [hq, hla]
    simp [hcontent, hstep]
  unfold classify
  rw [hfast]
  rfl

/-- Witness for `classify_followup_fast_path`:
`"should I call a technician?"` right after an assistant turn containing
`"Step 1:"`, with a failing provider and a failing parser. -/
theorem classify_followup_fast_path_witness :
    classify "should I call a technician?"
      [⟨"user", "my dishwasher leaks"⟩, ⟨"assistant", "Step 1: check the door seal"⟩]
      (Except.error ()) neverParse = Except.ok ⟨fastPathIntent, false⟩ :=
  classify_followup_fast_path _ _ _ _ ⟨"assistant", "Step 1: check the door seal"⟩
    (by decide) (by decide) (by decide)

/-- C7: (a) a handler response whose message contains one of the fixed
closing phrases and whose actions contain no input/choice action gets
exactly one completion-offer action (with the three fixed suggestions)
appended; (b) with any input/choice action present, nothing is appended;
(c) hence — handler responses in this program never emit a
completion-offer themselves, which is the third hypothesis — no formatted
response ever carries both an input-requesting action and a
completion-offer action. -/
theorem completion_offer_exclusive :
    (∀ (r : AgentResponse) (i : Intent),
      (completionIndicators.any fun indicator =>
        jsIncludes (jsToLower r.message) indicator) = true →
      hasInputPrompt r = false →
      (formatResponse r i).actions = r.actions ++ [completionAction]) ∧
    (∀ (r : AgentResponse) (i : Intent),
      hasInputPrompt r = true →
      (formatResponse r i).actions = r.actions) ∧
    (∀ (r : AgentResponse) (i : Intent),
      r.actions.any isCompletionAction = false →
      ¬((formatResponse r i).actions.any isInputAction = true ∧
        (formatResponse r i).actions.any isCompletionAction = true)) := by
  have hoffTrue : ∀ r : AgentResponse,
      (completionIndicators.any fun indicator =>
        jsIncludes (jsToLower r.message) indicator) = true →
      hasInputPrompt r = false → shouldOfferCompletion r = true := by
    intro r hind hip
    unfold shouldOfferCompletion
    rw [hip]
    simpa using hind
  have ha : ∀ (r : AgentResponse) (i : Intent),
      (completionIndicators.any fun indicator =>
        jsIncludes (jsToLower r.message) indicator) = true →
      hasInputPrompt r = false →
      (formatResponse r i).actions = r.actions ++ [completionAction] := by
    intro r i hind hip
    unfold formatResponse
    rw [hoffTrue r hind hip]
    rfl
  have hb : ∀ (r : AgentResponse) (i : Intent),
      hasInputPrompt r = true →
      (formatResponse r i).actions = r.actions := by
    intro r i hip
    have hoff : shouldOfferCompletion r = false := by
      unfold shouldOfferCompletion
      rw [hip]
      rfl
    unfold formatResponse
    rw [hoff]
    rfl
  refine ⟨ha, hb, ?_⟩
  intro r i hno hcon
  obtain ⟨h1, h2⟩ := hcon
  cases hip : hasInputPrompt r with
  | true =>
    rw [hb r i hip] at h2
    rw [h2] at hno
    exact Bool.noConfusion hno
  | false =>
    cases hoff : shouldOfferCompletion r with
    | false =>
      have hact : (formatResponse r i).actions = r.actions := by
        unfold formatResponse
        rw [hoff]
        rfl
      rw [hact] at h2
      rw [h2] at hno
      exact Bool.noConfusion hno
    | true =>
      have hact : (formatResponse r i).actions = r.actions ++ [completionAction] := by
        unfold formatResponse
        rw [hoff]
        rfl
      rw [hact, List.any_append] at h1
      unfold hasInputPrompt at hip
      rw [hip] at h1
      exact absurd h1 (by decide)

/-- Witness for `completion_offer_exclusive`: a bare
`"Hope this helps!"` response gets the completion offer, while the same
message with an `input_prompt` action does not, and carries no
completion-offer action either. -/
theorem completion_offer_exclusive_witness :
    (formatResponse ⟨"Hope this helps!", [], []⟩ fallbackIntent).actions =
      [] ++ [completionAction] ∧
    (formatResponse ⟨"Hope this helps!", [], [{ typ := "input_prompt" }]⟩
      fallbackIntent).actions = [{ typ := "input_prompt" }] ∧
    ¬((formatResponse ⟨"Hope this helps!", [], [{ typ := "input_prompt" }]⟩
        fallbackIntent).actions.any isInputAction = true ∧
      (formatResponse ⟨"Hope this helps!", [], [{ typ := "input_prompt" }]⟩
        fallbackIntent).actions.any isCompletionAction = true) :=
  ⟨completion_offer_exclusive.1 ⟨"Hope this helps!", [], []⟩ fallbackIntent
      (by decide) (by decide),
    completion_offer_exclusive.2.1 ⟨"Hope this helps!", [], [{ typ := "input_prompt" }]⟩
      fallbackIntent (by decide),
    completion_offer_exclusive.2.2 ⟨"Hope this helps!", [], [{ typ := "input_prompt" }]⟩
      fallbackIntent (by decide)⟩
